import Mathlib

/-!
Verification of the pubPerf AI autoscaler (ai-scaler-v3) against its
natural-language specification.

The Python sources are shallowly embedded: floats become exact rationals,
dictionaries with fixed key sets become records or association lists, and
the fallible Kubernetes / Prometheus calls become explicit `Except`/`Option`
parameters.  Every definition mirrors one function of the source tree:

* `decision_engine.py`  → `Scaler.calculate_weighted_score`,
  `Scaler.calculate_optimal_replicas`, `Scaler.should_scale`,
  `Scaler.make_decision`, `Scaler.calculate_confidence`
* `ml_predictor.py`     → `Scaler.predict`, `Scaler.add_training_sample`,
  `Scaler.train`, `Scaler.save_model`, `Scaler.load_model`
* `ai_scaler_v3.py`     → `Scaler.scale_deployment`
* `feature_engineering.py` → `Scaler.extract_features` and its helpers
-/

namespace Scaler

/-- Python `int(x)` on a float: truncation toward zero. -/
def pyInt (q : ℚ) : ℤ := if 0 ≤ q then ⌊q⌋ else ⌈q⌉

/-- Python `round(x)`: round half to even (banker's rounding), as used by
`int(round(prediction))` in `ml_predictor.py`. -/
def pyRound (q : ℚ) : ℤ :=
  let f := ⌊q⌋
  let frac := q - f
  if frac < 1/2 then f
  else if 1/2 < frac then f + 1
  else if f % 2 = 0 then f else f + 1

/-- Embeds `np.mean` over a list of rationals (0 on the empty list, matching the
convention that the guarded call sites never pass an empty list). -/
def mean (l : List ℚ) : ℚ := l.sum / l.length

/-- Population variance, the square of `np.std`. -/
def listVariance (l : List ℚ) : ℚ :=
  ((l.map (fun x => (x - mean l) ^ 2)).sum) / l.length

/-- Python `l[-n:]`: the last `n` elements (the whole list when shorter). -/
def lastN (n : ℕ) (l : List α) : List α := l.drop (l.length - n)

/-! ## Decision engine (`decision_engine.py`) -/

/-- Constructor parameters of `DecisionEngine.__init__` (targets, weights and
replica bounds).  `scale_up_score = 60` and `scale_down_score = 30` are set
unconditionally in `__init__` and appear as literals in `should_scale`. -/
structure DEConfig where
  target_cpu : ℚ
  target_memory : ℚ
  target_network : ℚ
  weight_cpu : ℚ
  weight_memory : ℚ
  weight_network : ℚ
  weight_cost : ℚ
  min_replicas : ℤ
  max_replicas : ℤ
deriving DecidableEq

/-- The default engine configuration used by `ai_scaler_v3.py` with the
default config file (targets 500 m / 512 MB / 10 Mbps, weights
0.4/0.3/0.2/0.1, replica range 1..10). -/
def defaultCfg : DEConfig :=
  { target_cpu := 500, target_memory := 512, target_network := 10
    weight_cpu := 2/5, weight_memory := 3/10, weight_network := 1/5
    weight_cost := 1/10, min_replicas := 1, max_replicas := 10 }

/-- The fields of the feature dictionary read by `decision_engine.py` and by
`MLPredictor.extract_ml_features` (each read with `.get(key, default)`, so a
record with these twelve numeric fields is the exact projection used). -/
structure Features where
  cpu_current : ℚ
  memory_current : ℚ
  network_total : ℚ
  cpu_avg : ℚ
  cpu_max : ℚ
  cpu_min : ℚ
  cpu_std : ℚ
  memory_avg : ℚ
  memory_max : ℚ
  cpu_trend : ℚ
  cpu_trend_strength : ℚ
  pod_count : ℚ
deriving DecidableEq

/-- Result dictionary of `DecisionEngine.calculate_weighted_score`. -/
structure Scores where
  cpu_score : ℚ
  memory_score : ℚ
  network_score : ℚ
  cost_score : ℚ
  total_score : ℚ
deriving DecidableEq

/-- Embeds `DecisionEngine.calculate_weighted_score` (decision_engine.py lines
65-105).  Each axis score is `min((value/target)*100, 100)`; the cost score
is `max(100 - (pod_count/max_replicas)*100, 0)`; the total is the weighted
sum. -/
def calculate_weighted_score (cfg : DEConfig) (f : Features) : Scores :=
  let cpu_score := min ((f.cpu_current / cfg.target_cpu) * 100) 100
  let memory_score := min ((f.memory_current / cfg.target_memory) * 100) 100
  let network_score := min ((f.network_total / cfg.target_network) * 100) 100
  let cost_score := max (100 - (f.pod_count / (cfg.max_replicas : ℚ)) * 100) 0
  { cpu_score := cpu_score
    memory_score := memory_score
    network_score := network_score
    cost_score := cost_score
    total_score :=
      cpu_score * cfg.weight_cpu + memory_score * cfg.weight_memory +
      network_score * cfg.weight_network + cost_score * cfg.weight_cost }

/-- Embeds `DecisionEngine.calculate_optimal_replicas` (decision_engine.py lines
107-148).  CPU- and memory-based counts via `ceil`, falling back to
`pod_count` when the metric is zero; for `cpu_per_pod < 10` only the
CPU-based count is used; the result is clamped into
`[min_replicas, max_replicas]`. -/
def calculate_optimal_replicas (cfg : DEConfig) (f : Features) : ℤ :=
  let cpu_current := f.cpu_current
  let memory_current := f.memory_current
  let pod_count : ℤ := pyInt f.pod_count
  let cpu_based_replicas : ℤ :=
    if cpu_current > 0 then ⌈cpu_current * (pod_count : ℚ) / cfg.target_cpu⌉
    else pod_count
  let memory_based_replicas : ℤ :=
    if memory_current > 0 then ⌈memory_current * (pod_count : ℚ) / cfg.target_memory⌉
    else pod_count
  let cpu_per_pod : ℚ :=
    if pod_count > 0 then cpu_current / (pod_count : ℚ) else cpu_current
  let optimal_replicas : ℤ :=
    if cpu_per_pod < 10 then cpu_based_replicas
    else max cpu_based_replicas memory_based_replicas
  max cfg.min_replicas (min optimal_replicas cfg.max_replicas)

/-- Which branch of `DecisionEngine.should_scale` produced the verdict
(abstracting the f-string reason messages of the source). -/
inductive ScaleReason where
  | largeDifference
  | highLoad
  | lowLoad
  | veryLowCpu
  | rapidCpuIncrease
  | atMinimumLowLoad
  | atMaximumHighLoad
  | noScalingNeeded
deriving DecidableEq

/-- Embeds `DecisionEngine.should_scale` (decision_engine.py lines 150-196): the six
dampening conditions, tried in source order, with the literal thresholds
`scale_up_score = 60` and `scale_down_score = 30`. -/
def should_scale (cfg : DEConfig) (current_replicas predicted_replicas : ℤ)
    (scores : Scores) (f : Features) : Bool × ScaleReason :=
  let total_score := scores.total_score
  let cpu_trend := f.cpu_trend
  let cpu_current := f.cpu_current
  if |predicted_replicas - current_replicas| ≥ 2 then
    (true, .largeDifference)
  else if total_score > 60 ∧ predicted_replicas > current_replicas then
    (true, .highLoad)
  else if total_score < 30 ∧ predicted_replicas < current_replicas then
    (true, .lowLoad)
  else
    let cpu_per_pod : ℚ :=
      if current_replicas > 0 then cpu_current / (current_replicas : ℚ)
      else cpu_current
    if cpu_per_pod < 5 ∧ predicted_replicas < current_replicas then
      (true, .veryLowCpu)
    else if cpu_trend > 50 ∧ predicted_replicas > current_replicas then
      (true, .rapidCpuIncrease)
    else if predicted_replicas = cfg.min_replicas ∧ total_score < 10 then
      (true, .atMinimumLowLoad)
    else if predicted_replicas = cfg.max_replicas ∧ total_score > 90 then
      (true, .atMaximumHighLoad)
    else
      (false, .noScalingNeeded)

/-- Embeds `DecisionEngine._calculate_confidence` (decision_engine.py lines
279-306). -/
def calculate_confidence (scores : Scores) (f : Features) : ℚ :=
  let total_score := scores.total_score
  let trend_strength := f.cpu_trend_strength
  let score_confidence : ℚ :=
    if total_score > 80 ∨ total_score < 20 then 9/10
    else if total_score > 60 ∨ total_score < 40 then 7/10
    else 1/2
  min ((score_confidence + trend_strength) / 2) 1

/-! ## ML predictor (`ml_predictor.py`) -/

/-- The fitted regressor state: the `StandardScaler` transform (returning
`none` models an exception inside the `try` block of `predict`, e.g. a shape
mismatch), the per-estimator predictions of the 100-tree random forest on a
scaled feature vector, and `np.std` of those per-tree predictions.  The
standard deviation is a square root and therefore not expressible as an
exact rational computation; it is carried as a separate field and
constrained to be the root of the population variance in the theorems that
use it. -/
structure RegModel where
  scalerTransform : List ℚ → Option (List ℚ)
  treePredict : List ℚ → List ℚ
  predStd : List ℚ → ℚ

/-- In-memory state of `MLPredictor`: the regressor, the `is_trained` flag,
the unbounded training buffers and the sample counter. -/
structure MLPredictor where
  model : RegModel
  is_trained : Bool
  training_features : List (List ℚ)
  training_labels : List ℤ
  training_samples : ℕ

/-- Embeds `MLPredictor.min_samples_for_training`, set to 20 in `__init__`. -/
def min_samples_for_training : ℕ := 20

/-- Embeds `MLPredictor.extract_ml_features` (ml_predictor.py lines 65-91): the
12-feature subvector, in source order. -/
def extract_ml_features (f : Features) : List ℚ :=
  [f.cpu_current, f.memory_current, f.network_total, f.cpu_avg, f.cpu_max,
   f.cpu_min, f.cpu_std, f.memory_avg, f.memory_max, f.cpu_trend,
   f.cpu_trend_strength, f.pod_count]

/-- Embeds `MLPredictor.predict` (ml_predictor.py lines 93-126).  Returns
`(none, 0)` when untrained or when the `try` block raises.  Otherwise
`prediction = model.predict(X_scaled)[0]`, which for a scikit-learn
`RandomForestRegressor` is the mean of the per-estimator predictions;
`predicted_replicas = max(1, int(round(prediction)))`; the confidence is
`max(0, min(1, 1 - std/max(prediction, 1)))` with `std` the `np.std` of the
per-tree predictions. -/
def predict (p : MLPredictor) (f : Features) : Option ℤ × ℚ :=
  if p.is_trained = false then (none, 0)
  else
    match p.model.scalerTransform (extract_ml_features f) with
    | none => (none, 0)
    | some X_scaled =>
      let prediction := mean (p.model.treePredict X_scaled)
      let predicted_replicas : ℤ := max 1 (pyRound prediction)
      let std := p.model.predStd X_scaled
      let confidence := max 0 (min 1 (1 - std / max prediction 1))
      (some predicted_replicas, confidence)

/-- Embeds `MLPredictor.train` (ml_predictor.py lines 152-188): refuses when fewer
than `min_samples_for_training` samples are buffered; otherwise refits the
scaler and the forest on the buffered matrix (abstracted by the `fit`
parameter, scikit-learn's numeric fitting procedure) and sets `is_trained`.
The `save_model` call on success is modelled separately by `save_model`.
Returns the new state and the Python return value. -/
def train (fit : List (List ℚ) → List ℤ → RegModel) (p : MLPredictor) :
    MLPredictor × Bool :=
  if p.training_features.length < min_samples_for_training then (p, false)
  else
    ({ p with model := fit p.training_features p.training_labels
              is_trained := true }, true)

/-- Embeds `MLPredictor.add_training_sample` (ml_predictor.py lines 128-150):
appends the 12-feature vector and the label, increments the counter, and
invokes `train()` when `training_samples ≥ min_samples_for_training` and
`training_samples % 10 == 0`.  The returned Boolean records whether
`train()` was invoked. -/
def add_training_sample (fit : List (List ℚ) → List ℤ → RegModel)
    (p : MLPredictor) (f : Features) (actual_replicas : ℤ) :
    MLPredictor × Bool :=
  let X := extract_ml_features f
  let p1 : MLPredictor :=
    { p with training_features := p.training_features ++ [X]
             training_labels := p.training_labels ++ [actual_replicas]
             training_samples := p.training_samples + 1 }
  if p1.training_samples ≥ min_samples_for_training ∧
      p1.training_samples % 10 = 0 then
    ((train fit p1).1, true)
  else
    (p1, false)

/-- Iterated `add_training_sample` over a list of (features, label) pairs. -/
def addMany (fit : List (List ℚ) → List ℤ → RegModel) (p : MLPredictor)
    (l : List (Features × ℤ)) : MLPredictor :=
  l.foldl (fun st fa => (add_training_sample fit st fa.1 fa.2).1) p

/-- The on-disk payload written by `MLPredictor.save_model` (ml_predictor.py
lines 190-213): model, scaler, counter, flag, and only the last 100 training
features and labels. -/
structure SavedModel where
  model : RegModel
  training_samples : ℕ
  is_trained : Bool
  training_features : List (List ℚ)
  training_labels : List ℤ

/-- Embeds `MLPredictor.save_model`: persists `training_features[-100:]` and
`training_labels[-100:]` together with the full counter and flag. -/
def save_model (p : MLPredictor) : SavedModel :=
  { model := p.model
    training_samples := p.training_samples
    is_trained := p.is_trained
    training_features := lastN 100 p.training_features
    training_labels := lastN 100 p.training_labels }

/-- Embeds `MLPredictor.load_model` (ml_predictor.py lines 215-241) on a readable
file: restores every persisted field into the in-memory state. -/
def load_model (s : SavedModel) : MLPredictor :=
  { model := s.model
    training_samples := s.training_samples
    is_trained := s.is_trained
    training_features := s.training_features
    training_labels := s.training_labels }

/-! ## Decision fusion (`DecisionEngine.make_decision`) -/

/-- Which fusion branch chose the target (the `decision_source` strings of
the source, abstracted to tags). -/
inductive DecisionSource where
  | ruleBasedLowScore
  | mlPrediction
  | ruleBasedLowConfidence
deriving DecidableEq

/-- The action chosen by `make_decision`. -/
inductive Action where
  | scale_up
  | scale_down
  | no_change
deriving DecidableEq

/-- The decision dictionary returned by `DecisionEngine.make_decision`. -/
structure Decision where
  current_replicas : ℤ
  target_replicas : ℤ
  optimal_replicas : ℤ
  rule_based_replicas : ℤ
  ml_replicas : Option ℤ
  ml_confidence : ℚ
  decision_source : DecisionSource
  action : Action
  should_scale : Bool
  reason : ScaleReason
  scores : Scores
  confidence : ℚ

/-- The ML consultation at the top of `make_decision`: `(None, 0.0)` when no
predictor is attached, else `self.ml_predictor.predict(features)`. -/
def mlOutput (mlp : Option MLPredictor) (f : Features) : Option ℤ × ℚ :=
  match mlp with
  | none => (none, 0)
  | some p => predict p f

/-- The fusion branch of `make_decision` (decision_engine.py lines 224-238):
`total_score < 25` forces rule-based; else a present ML prediction with
confidence strictly above 0.6 wins; else rule-based. -/
def chooseOptimal (rule_based_replicas : ℤ) (mlo : Option ℤ × ℚ)
    (total_score : ℚ) : ℤ × DecisionSource :=
  if total_score < 25 then (rule_based_replicas, .ruleBasedLowScore)
  else
    match mlo.1 with
    | some m =>
      if mlo.2 > 6/10 then (m, .mlPrediction)
      else (rule_based_replicas, .ruleBasedLowConfidence)
    | none => (rule_based_replicas, .ruleBasedLowConfidence)

/-- Embeds `DecisionEngine.make_decision` (decision_engine.py lines 198-277):
scores, rule-based optimal, ML consultation, fusion, dampening, and the
action mapping `scale_up` if `optimal > current` else `scale_down` when
scaling, `no_change` with `target = current` otherwise.  The
`add_training_sample` side effect on a non-trivial action is modelled by
`add_training_sample` (its schedule is the subject of its own claim). -/
def make_decision (cfg : DEConfig) (mlp : Option MLPredictor) (f : Features) :
    Decision :=
  let current_replicas : ℤ := pyInt f.pod_count
  let scores := calculate_weighted_score cfg f
  let rule_based_replicas := calculate_optimal_replicas cfg f
  let mlo := mlOutput mlp f
  let os := chooseOptimal rule_based_replicas mlo scores.total_score
  let sr := should_scale cfg current_replicas os.1 scores f
  let act : Action × ℤ :=
    if sr.1 then
      (if os.1 > current_replicas then Action.scale_up else Action.scale_down,
       os.1)
    else
      (Action.no_change, current_replicas)
  { current_replicas := current_replicas
    target_replicas := act.2
    optimal_replicas := os.1
    rule_based_replicas := rule_based_replicas
    ml_replicas := mlo.1
    ml_confidence := mlo.2
    decision_source := os.2
    action := act.1
    should_scale := sr.1
    reason := sr.2
    scores := scores
    confidence := calculate_confidence scores f }

/-! ## Control loop actuation (`ai_scaler_v3.py`) -/

/-- One entry of `self.scale_history`. -/
structure ScaleEvent where
  timestamp : String
  replicas : ℤ
deriving DecidableEq

/-- The mutable actuation state of `AIScalerV3` touched by
`scale_deployment`. -/
structure ScalerState where
  last_scale_time : Option ℚ
  scale_history : List ScaleEvent
deriving DecidableEq

/-- Embeds `AIScalerV3.scale_deployment` (ai_scaler_v3.py lines 151-183).  The read
and the patch against the Kubernetes control plane are passed as explicit
outcomes (`Except Unit _`, error = `ApiException`).  On either failure the
except-branch returns `False` and no state is touched; only after a
successful patch are `last_scale_time` set to the current time and an entry
appended to `scale_history`. -/
def scale_deployment (readResult : Except Unit ℤ) (patchResult : Except Unit Unit)
    (now : ℚ) (nowIso : String) (st : ScalerState) (target_replicas : ℤ) :
    ScalerState × Bool :=
  match readResult with
  | .error _ => (st, false)
  | .ok _ =>
    match patchResult with
    | .error _ => (st, false)
    | .ok _ =>
      ({ last_scale_time := some now
         scale_history := st.scale_history ++ [⟨nowIso, target_replicas⟩] },
       true)

/-! ## Feature engineering (`feature_engineering.py`)

The feature dictionary is heterogeneous (floats, ints and a pattern string),
and some entries (`np.std`, the sin/cos encodings) are irrational, so the
dictionary is embedded as an association list over a value type with a real
constructor for those entries. -/

/-- A value of the feature dictionary: an exact numeric value, an irrational
numeric value (standard deviations, volatility, the cyclic encodings), or a
pattern string. -/
inductive FVal where
  | num (q : ℚ)
  | real (r : ℝ)
  | str (s : String)

/-- Python `features[key]` lookup in the association-list embedding of the
dictionary (first binding wins; all builders below use pairwise-distinct
keys, matching `dict.update` over disjoint key groups). -/
def lookupKey (k : String) : List (String × FVal) → Option FVal
  | [] => none
  | (k', v) :: rest => if k' = k then some v else lookupKey k rest

/-- The metric snapshot returned by
`PrometheusClient.get_comprehensive_metrics`, projected onto the keys that
`FeatureEngineer._extract_current_features` reads (each with
`.get(key, default)`). -/
structure PromMetrics where
  pod_count : ℚ
  cpu_per_pod : ℚ
  total_cpu : ℚ
  memory_per_pod_mb : ℚ
  total_memory_mb : ℚ
  network_in_mbps : ℚ
  network_out_mbps : ℚ
deriving DecidableEq

/-- Wall-clock fields read from `datetime.now()`. -/
structure TimeInfo where
  hour : ℕ
  weekday : ℕ
deriving DecidableEq

/-- Embeds `FeatureEngineer._extract_current_features` (feature_engineering.py
lines 80-111). -/
def extractCurrentFeatures (m : PromMetrics) : List (String × FVal) :=
  [("pod_count", .num m.pod_count),
   ("cpu_current", .num m.cpu_per_pod),
   ("cpu_total", .num m.total_cpu),
   ("memory_current", .num m.memory_per_pod_mb),
   ("memory_total", .num m.total_memory_mb),
   ("network_in_rate", .num m.network_in_mbps),
   ("network_out_rate", .num m.network_out_mbps),
   ("network_total", .num (m.network_in_mbps + m.network_out_mbps)),
   ("cpu_per_pod_ratio", .num (if m.pod_count > 0 then m.cpu_per_pod / 500 else 0)),
   ("memory_per_pod_ratio", .num (if m.pod_count > 0 then m.memory_per_pod_mb / 512 else 0))]

/-- Embeds `FeatureEngineer._extract_historical_features` (feature_engineering.py
lines 113-150).  With fewer than 2 samples: a five-entry default block
without a volatility entry.  Otherwise `np.mean`/`max`/`min`/`std`, the
1-hour average (falling back to the 15-minute average below 240 samples),
and the volatility `std/avg` guarded by `avg > 0`. -/
noncomputable def extractHistoricalFeatures (historical : List ℚ)
    (metric : String) : List (String × FVal) :=
  if historical.length < 2 then
    [(metric ++ "_avg_15m", .num 0),
     (metric ++ "_avg_1h", .num 0),
     (metric ++ "_max_15m", .num 0),
     (metric ++ "_min_15m", .num 0),
     (metric ++ "_std_15m", .num 0)]
  else
    let avg := mean historical
    let mx := historical.foldl max ((historical.headI : ℚ))
    let mn := historical.foldl min ((historical.headI : ℚ))
    let stdQ := listVariance historical
    let avg1h := if historical.length ≥ 240 then mean (lastN 240 historical) else avg
    let volatility : FVal :=
      if avg > 0 then .real (Real.sqrt (stdQ : ℝ) / (avg : ℝ)) else .num 0
    [(metric ++ "_avg_15m", .num avg),
     (metric ++ "_max_15m", .num mx),
     (metric ++ "_min_15m", .num mn),
     (metric ++ "_std_15m", .real (Real.sqrt (stdQ : ℝ))),
     (metric ++ "_avg_1h", .num avg1h),
     (metric ++ "_volatility", volatility)]

/-- Embeds `FeatureEngineer._extract_time_features` (feature_engineering.py lines
152-170), with `datetime.now()` passed explicitly. -/
noncomputable def extractTimeFeatures (t : TimeInfo) : List (String × FVal) :=
  [("hour_of_day", .num t.hour),
   ("day_of_week", .num t.weekday),
   ("is_business_hours",
    .num (if 9 ≤ t.hour ∧ t.hour < 17 ∧ t.weekday < 5 then 1 else 0)),
   ("is_weekend", .num (if 5 ≤ t.weekday then 1 else 0)),
   ("is_peak_hour",
    .num (if t.hour ∈ [9, 10, 11, 14, 15, 16] then 1 else 0)),
   ("hour_sin", .real (Real.sin (2 * Real.pi * t.hour / 24))),
   ("hour_cos", .real (Real.cos (2 * Real.pi * t.hour / 24))),
   ("day_sin", .real (Real.sin (2 * Real.pi * t.weekday / 7))),
   ("day_cos", .real (Real.cos (2 * Real.pi * t.weekday / 7)))]

/-- Ordinary-least-squares slope and intercept of `np.polyfit(x, values, 1)`
over `x = 0, 1, ..., n-1`. -/
def olsFit (values : List ℚ) : ℚ × ℚ :=
  let n := values.length
  let xs : List ℚ := (List.range n).map (fun i => (i : ℚ))
  let xbar := mean xs
  let ybar := mean values
  let sxy := (List.zipWith (fun x y => (x - xbar) * (y - ybar)) xs values).sum
  let sxx := (xs.map (fun x => (x - xbar) ^ 2)).sum
  let slope := sxy / sxx
  (slope, ybar - slope * xbar)

/-- Embeds `FeatureEngineer._extract_trend_features` (feature_engineering.py lines
172-211).  Below 10 samples: zero trend and strength, with no
rate-of-change entry.  Otherwise the OLS slope over the last 60 samples, the
R² with the `ss_tot > 0` guard, and `values[-1] - values[-10]` (falling back
to `values[-1] - values[0]` for fewer than 10 points). -/
def extractTrendFeatures (historical : List ℚ) (metric : String) :
    List (String × FVal) :=
  if historical.length < 10 then
    [(metric ++ "_trend", .num 0),
     (metric ++ "_trend_strength", .num 0)]
  else
    let values := lastN 60 historical
    let base : List (String × FVal) :=
      if values.length > 1 then
        let sl := olsFit values
        let xs : List ℚ := (List.range values.length).map (fun i => (i : ℚ))
        let y_pred := xs.map (fun x => sl.1 * x + sl.2)
        let ss_res := (List.zipWith (fun y yp => (y - yp) ^ 2) values y_pred).sum
        let ss_tot := (values.map (fun y => (y - mean values) ^ 2)).sum
        let strength := if ss_tot > 0 then 1 - ss_res / ss_tot else 0
        [(metric ++ "_trend", .num sl.1),
         (metric ++ "_trend_strength", .num strength)]
      else
        [(metric ++ "_trend", .num 0),
         (metric ++ "_trend_strength", .num 0)]
    let roc : List (String × FVal) :=
      if values.length ≥ 2 then
        let recent_change :=
          if values.length ≥ 10 then
            values.getD (values.length - 1) 0 - values.getD (values.length - 10) 0
          else
            values.getD (values.length - 1) 0 - values.getD 0 0
        [(metric ++ "_rate_of_change", .num recent_change)]
      else
        [(metric ++ "_rate_of_change", .num 0)]
    base ++ roc

/-- Embeds `FeatureEngineer._extract_pattern_features` (feature_engineering.py
lines 213-249).  Below 10 samples: pattern `unknown` with all three one-hot
flags 0.  Otherwise the mean of the last 20 samples is compared to the mean
of the first 20 of the 60-sample window, with ±10 % thresholds. -/
def extractPatternFeatures (historical : List ℚ) (metric : String) :
    List (String × FVal) :=
  if historical.length < 10 then
    [(metric ++ "_pattern", .str "unknown"),
     (metric ++ "_is_increasing", .num 0),
     (metric ++ "_is_stable", .num 0),
     (metric ++ "_is_decreasing", .num 0)]
  else
    let values := lastN 60 historical
    let pat : String :=
      if values.length ≥ 3 then
        let recent_avg := mean (lastN 20 values)
        let older_avg := mean (values.take 20)
        let change_pct :=
          if older_avg > 0 then (recent_avg - older_avg) / older_avg * 100 else 0
        if change_pct > 10 then "increasing"
        else if change_pct < -10 then "decreasing"
        else "stable"
      else "unknown"
    [(metric ++ "_pattern", .str pat),
     (metric ++ "_is_increasing", .num (if pat = "increasing" then 1 else 0)),
     (metric ++ "_is_stable", .num (if pat = "stable" then 1 else 0)),
     (metric ++ "_is_decreasing", .num (if pat = "decreasing" then 1 else 0))]

/-- Embeds `FeatureEngineer._get_default_features` (feature_engineering.py lines
266-301): the 32-key fallback dictionary (note hour/day come from
`datetime.now()`, `pod_count` is 1.0 and `hour_cos`/`day_cos` are the
literals 1.0). -/
def defaultFeatures (t : TimeInfo) : List (String × FVal) :=
  [("pod_count", .num 1),
   ("cpu_current", .num 0),
   ("cpu_total", .num 0),
   ("memory_current", .num 0),
   ("memory_total", .num 0),
   ("network_in_rate", .num 0),
   ("network_out_rate", .num 0),
   ("network_total", .num 0),
   ("cpu_per_pod_ratio", .num 0),
   ("memory_per_pod_ratio", .num 0),
   ("cpu_avg_15m", .num 0),
   ("cpu_max_15m", .num 0),
   ("cpu_min_15m", .num 0),
   ("cpu_std_15m", .num 0),
   ("cpu_avg_1h", .num 0),
   ("cpu_volatility", .num 0),
   ("cpu_trend", .num 0),
   ("cpu_trend_strength", .num 0),
   ("cpu_rate_of_change", .num 0),
   ("cpu_pattern", .str "unknown"),
   ("cpu_is_increasing", .num 0),
   ("cpu_is_stable", .num 0),
   ("cpu_is_decreasing", .num 0),
   ("hour_of_day", .num t.hour),
   ("day_of_week", .num t.weekday),
   ("is_business_hours", .num 0),
   ("is_weekend", .num 0),
   ("is_peak_hour", .num 0),
   ("hour_sin", .num 0),
   ("hour_cos", .num 1),
   ("day_sin", .num 0),
   ("day_cos", .num 1)]

/-- Embeds `FeatureEngineer.extract_features` (feature_engineering.py lines
33-78).  `currentMetrics = none` models an exception raised by
`get_comprehensive_metrics` inside the `try` block, which yields the default
vector.  `_get_historical_metrics` swallows its own exceptions and returns
`[]` for memory (no `get_historical_memory` is implemented), so the memory
history is the literal empty list.  Successive `features.update(...)` calls
over disjoint key groups become list concatenation. -/
noncomputable def extract_features (currentMetrics : Option PromMetrics)
    (historical_cpu : List ℚ) (t : TimeInfo) : List (String × FVal) :=
  match currentMetrics with
  | none => defaultFeatures t
  | some m =>
    extractCurrentFeatures m ++
    extractHistoricalFeatures historical_cpu "cpu" ++
    extractHistoricalFeatures [] "memory" ++
    extractTimeFeatures t ++
    extractTrendFeatures historical_cpu "cpu" ++
    extractTrendFeatures [] "memory" ++
    extractPatternFeatures historical_cpu "cpu"

/-! ## Concrete instances used to evaluate the model -/

/-- A feature vector with all metrics zero and the given pod count. -/
def zeroFeat (pc : ℚ) : Features := ⟨0, 0, 0, 0, 0, 0, 0, 0, 0, 0, 0, pc⟩

/-- Scenario S1 of the spec (low load, 3 pods), with an attached trained
model: cpu 100 m/pod, memory 150 MB/pod, network 2 Mbps. -/
def lowLoadFeat : Features := ⟨100, 150, 2, 0, 0, 0, 0, 0, 0, 0, 1/2, 3⟩

/-- Scenario S3 of the spec (steady state, 3 pods): cpu 450 m/pod, memory
480 MB/pod, network 8 Mbps, mild trend. -/
def steadyFeat : Features := ⟨450, 480, 8, 0, 0, 0, 0, 0, 0, 1/2, 3/10, 3⟩

/-- A mid-load state (3 pods, cpu 250 m/pod, memory 256 MB/pod, network
5 Mbps) whose total score lands in the dampening dead zone [30, 60]. -/
def midLoadFeat : Features := ⟨250, 256, 5, 0, 0, 0, 0, 0, 0, 0, 0, 3⟩

/-- A trained regressor whose 100 trees all predict 50 replicas: the
identity scaler, constant per-tree predictions and zero spread. -/
def mlHighModel : RegModel :=
  { scalerTransform := fun xs => some xs
    treePredict := fun _ => [50, 50]
    predStd := fun _ => 0 }

/-- A trained `MLPredictor` wrapping `mlHighModel`. -/
def mlHighPredictor : MLPredictor :=
  { model := mlHighModel, is_trained := true
    training_features := [], training_labels := [], training_samples := 0 }

/-- A trained model whose trees predict 2 and 4 (mean 3, `np.std` 1). -/
def mlSpreadModel : RegModel :=
  { scalerTransform := fun xs => some xs
    treePredict := fun _ => [2, 4]
    predStd := fun _ => 1 }

/-- A trained `MLPredictor` wrapping `mlSpreadModel`. -/
def mlSpreadPredictor : MLPredictor :=
  { model := mlSpreadModel, is_trained := true
    training_features := [], training_labels := [], training_samples := 0 }

/-- An untrained predictor with empty buffers. -/
def freshPredictor : MLPredictor :=
  { model := ⟨fun _ => none, fun _ => [], fun _ => 0⟩, is_trained := false
    training_features := [], training_labels := [], training_samples := 0 }

/-- A trivial fitting procedure for exercising the training schedule. -/
def constFit : List (List ℚ) → List ℤ → RegModel :=
  fun _ _ => ⟨fun xs => some xs, fun _ => [1], fun _ => 0⟩

/-- A live metric snapshot with 3 pods and non-zero readings. -/
def liveMetrics : PromMetrics := ⟨3, 120, 360, 200, 600, 1, 1⟩

/-- A fixed wall-clock instant (Wednesday, 12:00). -/
def noonTime : TimeInfo := ⟨12, 2⟩

end Scaler

namespace Scaler

/-! # Theorems -/

/-- Claim C9: `AIScalerV3.scale_deployment` leaves `last_scale_time` and
`scale_history` unchanged and returns `false` whenever the orchestrator
read or patch raises `ApiException`; the state is touched only by a
successful patch, which sets `last_scale_time := now` and appends one
history entry. -/
theorem c9_scale_only_on_success (readR : Except Unit ℤ)
    (patchR : Except Unit Unit) (now : ℚ) (iso : String) (st : ScalerState)
    (target : ℤ) :
    (∀ e, patchR = .error e →
      scale_deployment readR patchR now iso st target = (st, false))
    ∧ (∀ e, readR = .error e →
      scale_deployment readR patchR now iso st target = (st, false))
    ∧ ((scale_deployment readR patchR now iso st target).1 ≠ st →
      (scale_deployment readR patchR now iso st target).2 = true ∧
      patchR = .ok () ∧
      (scale_deployment readR patchR now iso st target).1.last_scale_time =
        some now ∧
      (scale_deployment readR patchR now iso st target).1.scale_history =
        st.scale_history ++ [⟨iso, target⟩]) := by
  cases readR with
  | error e => simp [scale_deployment]
  | ok n =>
    cases patchR with
    | error e => simp [scale_deployment]
    | ok u => simp [scale_deployment]

/-- Witness for C9: a failed patch at a concrete state is a no-op returning
`false`. -/
theorem c9_scale_only_on_success_witness :
    scale_deployment (.ok 3) (.error ()) 100 "t0" ⟨none, []⟩ 5 =
      (⟨none, []⟩, false) :=
  (c9_scale_only_on_success (.ok 3) (.error ()) 100 "t0" ⟨none, []⟩ 5).1 () rfl

/-- Claim C10: `save_model` persists only the last 100 training samples, so
any state reloaded through `load_model ∘ save_model` has buffers of length
at most 100, while the persisted `training_samples` counter is carried over
unchanged and can exceed 100. -/
theorem c10_persisted_tail_bounded :
    (∀ p : MLPredictor,
      (load_model (save_model p)).training_features.length ≤ 100 ∧
      (load_model (save_model p)).training_labels.length ≤ 100 ∧
      (load_model (save_model p)).training_samples = p.training_samples)
    ∧ (∃ p : MLPredictor,
        100 < (load_model (save_model p)).training_samples ∧
        (load_model (save_model p)).training_features.length ≤ 100) := by
  constructor
  · intro p
    refine ⟨?_, ?_, rfl⟩ <;>
      simp only [load_model, save_model, lastN, List.length_drop] <;> omega
  · refine ⟨⟨⟨fun _ => none, fun _ => [], fun _ => 0⟩, false,
      List.replicate 150 [], List.replicate 150 0, 150⟩, ?_, ?_⟩ <;>
      simp [load_model, save_model, lastN]

theorem add_training_sample_samples (fit : List (List ℚ) → List ℤ → RegModel)
    (p : MLPredictor) (f : Features) (a : ℤ) :
    (add_training_sample fit p f a).1.training_samples =
      p.training_samples + 1 := by
  simp only [add_training_sample, train]
  split
  · split <;> rfl
  · rfl

theorem addMany_samples (fit : List (List ℚ) → List ℤ → RegModel)
    (p : MLPredictor) (l : List (Features × ℤ)) :
    (addMany fit p l).training_samples = p.training_samples + l.length := by
  induction l generalizing p with
  | nil => simp [addMany]
  | cons x xs ih =>
    simp only [addMany, List.foldl_cons] at *
    rw [ih, add_training_sample_samples]
    simp [Nat.add_comm, Nat.add_assoc, Nat.add_left_comm]

/-- Claim C8: starting from a predictor with zero samples, the `k`-th call
to `add_training_sample` invokes `train()` exactly when `k ≥ 20` and
`k % 10 = 0` — i.e. first at the 20th sample, then at 30, 40, …. -/
theorem c8_training_trigger (fit : List (List ℚ) → List ℤ → RegModel)
    (p : MLPredictor) (h0 : p.training_samples = 0)
    (l : List (Features × ℤ)) (f : Features) (a : ℤ) :
    ((add_training_sample fit (addMany fit p l) f a).2 = true ↔
      (20 ≤ l.length + 1 ∧ (l.length + 1) % 10 = 0)) := by
  have hs : (addMany fit p l).training_samples = l.length := by
    rw [addMany_samples, h0, Nat.zero_add]
  simp only [add_training_sample, min_samples_for_training]
  rw [hs]
  split
  · next hc => exact iff_of_true rfl (by omega)
  · next hc => exact iff_of_false (fun h => Bool.noConfusion h) hc

/-- Witness for C8: from zero samples, the 20th sample triggers training
(19 prior adds, then one more), while the 5th does not. -/
theorem c8_training_trigger_witness :
    (add_training_sample constFit
      (addMany constFit freshPredictor
        (List.replicate 19 (zeroFeat 1, (1 : ℤ)))) (zeroFeat 1) 1).2 = true ∧
    (add_training_sample constFit
      (addMany constFit freshPredictor
        (List.replicate 4 (zeroFeat 1, (1 : ℤ)))) (zeroFeat 1) 1).2 = false := by
  constructor
  · exact (c8_training_trigger constFit freshPredictor rfl
      (List.replicate 19 (zeroFeat 1, (1 : ℤ))) (zeroFeat 1) 1).mpr
      (by simp)
  · have h := (c8_training_trigger constFit freshPredictor rfl
      (List.replicate 4 (zeroFeat 1, (1 : ℤ))) (zeroFeat 1) 1)
    simp only [List.length_replicate] at h
    cases hb : (add_training_sample constFit
      (addMany constFit freshPredictor
        (List.replicate 4 (zeroFeat 1, (1 : ℤ)))) (zeroFeat 1) 1).2
    · rfl
    · exact absurd (h.mp hb) (by omega)

/-- Claim C7: `MLPredictor.predict` returns `(none, 0)` when the model is
untrained or the prediction raises internally; when trained with scaled
vector `xs`, per-tree predictions `ps`, mean `μ` and standard deviation `σ`
(σ ≥ 0 with `σ² · |ps| = Σ (p − μ)²`), it returns
`(max 1 (round μ), max 0 (min 1 (1 − σ / max μ 1)))`; in every case the
confidence lies in `[0, 1]`. -/
theorem c7_predict_contract (p : MLPredictor) (f : Features) :
    (0 ≤ (predict p f).2 ∧ (predict p f).2 ≤ 1)
    ∧ (p.is_trained = false → predict p f = (none, 0))
    ∧ (p.model.scalerTransform (extract_ml_features f) = none →
        predict p f = (none, 0))
    ∧ (∀ xs, p.is_trained = true →
        p.model.scalerTransform (extract_ml_features f) = some xs →
        0 ≤ p.model.predStd xs →
        (p.model.predStd xs) ^ 2 * ((p.model.treePredict xs).length : ℚ) =
          ((p.model.treePredict xs).map
            (fun x => (x - mean (p.model.treePredict xs)) ^ 2)).sum →
        predict p f =
          (some (max 1 (pyRound (mean (p.model.treePredict xs)))),
           max 0 (min 1 (1 - p.model.predStd xs /
              max (mean (p.model.treePredict xs)) 1)))) := by
  refine ⟨?_, ?_, ?_, ?_⟩
  · unfold predict
    by_cases ht : p.is_trained = false
    · simp [ht]
    · simp only [ht, if_false]
      cases hsc : p.model.scalerTransform (extract_ml_features f) with
      | none => simp
      | some xs =>
        constructor
        · exact le_max_left 0 _
        · exact max_le (by norm_num) (min_le_left 1 _)
  · intro ht; unfold predict; simp [ht]
  · intro hsc; unfold predict
    by_cases ht : p.is_trained = false
    · simp [ht]
    · simp [ht, hsc]
  · intro xs ht hsc _ _
    unfold predict
    simp [ht, hsc]

/-- Witness for C7: a trained predictor with tree predictions `[2, 4]`
(mean 3, std 1) yields `(some 3, 2/3)`. -/
theorem c7_predict_contract_witness :
    predict mlSpreadPredictor (zeroFeat 2) = (some 3, 2/3) := by
  have h := (c7_predict_contract mlSpreadPredictor (zeroFeat 2)).2.2.2
    (extract_ml_features (zeroFeat 2)) rfl rfl
    (by norm_num [mlSpreadPredictor, mlSpreadModel])
    (by norm_num [mlSpreadPredictor, mlSpreadModel, mean])
  rw [h]
  norm_num [mlSpreadPredictor, mlSpreadModel, mean, pyRound]

/-- Claim C1 (the code violates the clamped-target invariant): with the
default configuration (`min_replicas = 1`, `max_replicas = 10`) and a
trained predictor whose trees all agree on 50 replicas (confidence 1), a
low-load feature vector with `total_score ≥ 25` drives `make_decision` to
target 50 replicas — the ML branch bypasses the `[min, max]` clamp that
`calculate_optimal_replicas` applies to the rule-based path. -/
theorem c1_target_exceeds_max :
    (make_decision defaultCfg (some mlHighPredictor) lowLoadFeat).target_replicas
      = 50 ∧
    defaultCfg.max_replicas = 10 ∧
    defaultCfg.max_replicas <
      (make_decision defaultCfg (some mlHighPredictor) lowLoadFeat).target_replicas := by
  norm_num [make_decision, mlOutput, predict, chooseOptimal, should_scale,
    calculate_weighted_score, calculate_optimal_replicas, pyInt, pyRound, mean,
    extract_ml_features, mlHighPredictor, mlHighModel, lowLoadFeat, defaultCfg]

/-- Counterexample to claim C2: with all metrics zero and 3 pods (3 > 1 =
`min_replicas`), `calculate_optimal_replicas` returns 3 (the zero-CPU branch
falls back to `pod_count`), not `min_replicas`. -/
theorem c2_counterexample :
    (zeroFeat 3).cpu_current = 0 ∧ (zeroFeat 3).memory_current = 0 ∧
    (zeroFeat 3).network_total = 0 ∧
    defaultCfg.min_replicas < pyInt (zeroFeat 3).pod_count ∧
    defaultCfg.min_replicas = 1 ∧
    calculate_optimal_replicas defaultCfg (zeroFeat 3) = 3 := by
  norm_num [calculate_optimal_replicas, pyInt, zeroFeat, defaultCfg]

/-- Claim C2, amended: when `cpu_current = memory_current = network_total = 0`
and `pod_count > min_replicas`, both per-metric estimates fall back to
`pod_count`, so `calculate_optimal_replicas` returns the clamp of
`pod_count` into `[min_replicas, max_replicas]` (not `min_replicas`); the
cpu, memory and network scores are all 0 as claimed. -/
theorem c2_zero_metrics_rule_based (cfg : DEConfig) (f : Features)
    (hcpu : f.cpu_current = 0) (hmem : f.memory_current = 0)
    (hnet : f.network_total = 0)
    (hpc : cfg.min_replicas < pyInt f.pod_count) :
    calculate_optimal_replicas cfg f =
      max cfg.min_replicas (min (pyInt f.pod_count) cfg.max_replicas) ∧
    (calculate_weighted_score cfg f).cpu_score = 0 ∧
    (calculate_weighted_score cfg f).memory_score = 0 ∧
    (calculate_weighted_score cfg f).network_score = 0 := by
  refine ⟨?_, ?_, ?_, ?_⟩
  · unfold calculate_optimal_replicas
    rw [hcpu, hmem]
    by_cases hp : (0 : ℤ) < pyInt f.pod_count <;>
      simp [hp, zero_div]
  · unfold calculate_weighted_score
    rw [hcpu]; norm_num
  · unfold calculate_weighted_score
    rw [hmem]; norm_num
  · unfold calculate_weighted_score
    rw [hnet]; norm_num

/-- Witness for the amended C2 at 5 pods: the optimal is the clamped pod
count, and the three metric scores are zero. -/
theorem c2_zero_metrics_rule_based_witness :
    calculate_optimal_replicas defaultCfg (zeroFeat 5) =
      max defaultCfg.min_replicas
        (min (pyInt (zeroFeat 5).pod_count) defaultCfg.max_replicas) ∧
    (calculate_weighted_score defaultCfg (zeroFeat 5)).cpu_score = 0 ∧
    (calculate_weighted_score defaultCfg (zeroFeat 5)).memory_score = 0 ∧
    (calculate_weighted_score defaultCfg (zeroFeat 5)).network_score = 0 :=
  c2_zero_metrics_rule_based defaultCfg (zeroFeat 5) rfl rfl rfl
    (by norm_num [pyInt, zeroFeat, defaultCfg])

/-- Counterexample to claim C3: at one pod with all metrics zero the
boundary condition (`optimal = min_replicas ∧ total_score < 10`) makes
`should_scale` true with `optimal = current`, so `make_decision` emits
`scale_down` whose target EQUALS the current count — refuting
`action = scale_down ↔ target < current` and
`action = no_change ↔ target = current`. -/
theorem c3_counterexample :
    (make_decision defaultCfg none (zeroFeat 1)).action = Action.scale_down ∧
    (make_decision defaultCfg none (zeroFeat 1)).target_replicas =
      (make_decision defaultCfg none (zeroFeat 1)).current_replicas := by
  norm_num [make_decision, mlOutput, chooseOptimal, should_scale,
    calculate_weighted_score, calculate_optimal_replicas, pyInt, zeroFeat,
    defaultCfg]

/-- Claim C3, amended: `action = scale_up` iff `target > current`;
`no_change` implies `target = current` (and holds iff `should_scale` is
false); but `scale_down` only guarantees `target ≤ current`, since the
boundary dampening condition can fire with `optimal = current`. -/
theorem c3_action_mapping (cfg : DEConfig) (mlp : Option MLPredictor)
    (f : Features) :
    ((make_decision cfg mlp f).action = Action.scale_up ↔
      (make_decision cfg mlp f).current_replicas <
        (make_decision cfg mlp f).target_replicas) ∧
    ((make_decision cfg mlp f).action = Action.no_change →
      (make_decision cfg mlp f).target_replicas =
        (make_decision cfg mlp f).current_replicas) ∧
    ((make_decision cfg mlp f).action = Action.scale_down →
      (make_decision cfg mlp f).target_replicas ≤
        (make_decision cfg mlp f).current_replicas) ∧
    ((make_decision cfg mlp f).should_scale = false ↔
      (make_decision cfg mlp f).action = Action.no_change) := by
  by_cases h1 : (should_scale cfg (pyInt f.pod_count)
      (chooseOptimal (calculate_optimal_replicas cfg f) (mlOutput mlp f)
        (calculate_weighted_score cfg f).total_score).1
      (calculate_weighted_score cfg f) f).1 = true <;>
    by_cases h2 : pyInt f.pod_count <
      (chooseOptimal (calculate_optimal_replicas cfg f) (mlOutput mlp f)
        (calculate_weighted_score cfg f).total_score).1 <;>
    simp [make_decision, h1, h2] <;> omega

/-- Witness for the amended C3: a steady-state input yields `no_change`,
and the theorem turns that into `target = current`. -/
theorem c3_action_mapping_witness :
    (make_decision defaultCfg none steadyFeat).target_replicas =
      (make_decision defaultCfg none steadyFeat).current_replicas :=
  (c3_action_mapping defaultCfg none steadyFeat).2.1 (by
    have hc1 : (⌈(27/10 : ℚ)⌉ : ℤ) = 3 := by rw [Int.ceil_eq_iff]; norm_num
    have hc2 : (⌈(45/16 : ℚ)⌉ : ℤ) = 3 := by rw [Int.ceil_eq_iff]; norm_num
    norm_num [make_decision, mlOutput, chooseOptimal, should_scale,
      calculate_weighted_score, calculate_optimal_replicas, pyInt, steadyFeat,
      defaultCfg, hc1, hc2])

theorem chooseOptimal_spec (rb : ℤ) (mlo : Option ℤ × ℚ) (t : ℚ) :
    (t < 25 → chooseOptimal rb mlo t = (rb, .ruleBasedLowScore)) ∧
    (¬t < 25 → ∀ m, mlo.1 = some m → mlo.2 > 6/10 →
      chooseOptimal rb mlo t = (m, .mlPrediction)) ∧
    (¬t < 25 → (mlo.1 = none ∨ ¬mlo.2 > 6/10) →
      chooseOptimal rb mlo t = (rb, .ruleBasedLowConfidence)) := by
  obtain ⟨o, c⟩ := mlo
  refine ⟨fun h => by simp [chooseOptimal, h], fun h m hm hc => ?_,
    fun h hor => ?_⟩
  · simp only at hm
    subst hm
    simp [chooseOptimal, h, hc]
  · rcases hor with ho | hc
    · simp only at ho
      subst ho
      simp [chooseOptimal, h]
    · simp only at hc
      cases o with
      | none => simp [chooseOptimal, h]
      | some m => simp [chooseOptimal, h, hc]

/-- Claim C5: the fusion gate of `make_decision` — a total score below 25
forces the rule-based optimal regardless of ML confidence; otherwise a
present ML prediction with confidence strictly above 0.6 is used; otherwise
(including confidence exactly 0.6) the rule-based optimal is used. -/
theorem c5_fusion_gate (cfg : DEConfig) (mlp : Option MLPredictor)
    (f : Features) :
    ((make_decision cfg mlp f).scores.total_score < 25 →
      (make_decision cfg mlp f).optimal_replicas =
        calculate_optimal_replicas cfg f ∧
      (make_decision cfg mlp f).decision_source =
        DecisionSource.ruleBasedLowScore) ∧
    (¬(make_decision cfg mlp f).scores.total_score < 25 →
      ∀ m, (make_decision cfg mlp f).ml_replicas = some m →
        (make_decision cfg mlp f).ml_confidence > 6/10 →
        (make_decision cfg mlp f).optimal_replicas = m ∧
        (make_decision cfg mlp f).decision_source =
          DecisionSource.mlPrediction) ∧
    (¬(make_decision cfg mlp f).scores.total_score < 25 →
      ((make_decision cfg mlp f).ml_replicas = none ∨
        ¬(make_decision cfg mlp f).ml_confidence > 6/10) →
      (make_decision cfg mlp f).optimal_replicas =
        calculate_optimal_replicas cfg f ∧
      (make_decision cfg mlp f).decision_source =
        DecisionSource.ruleBasedLowConfidence) := by
  have hs := chooseOptimal_spec (calculate_optimal_replicas cfg f)
    (mlOutput mlp f) (calculate_weighted_score cfg f).total_score
  refine ⟨fun h => ?_, fun h m hm hc => ?_, fun h hor => ?_⟩
  · have he := hs.1 h
    exact ⟨congrArg Prod.fst he, congrArg Prod.snd he⟩
  · have he := hs.2.1 h m hm hc
    exact ⟨congrArg Prod.fst he, congrArg Prod.snd he⟩
  · have he := hs.2.2 h hor
    exact ⟨congrArg Prod.fst he, congrArg Prod.snd he⟩

/-- Witness for C5: all metrics zero at 3 pods gives total score 7 < 25, so
even a confidence-1 ML prediction of 50 is overridden by the rule-based
optimal (3, the clamped pod count). -/
theorem c5_fusion_gate_witness :
    (make_decision defaultCfg (some mlHighPredictor) (zeroFeat 3)).optimal_replicas
      = calculate_optimal_replicas defaultCfg (zeroFeat 3) ∧
    (make_decision defaultCfg (some mlHighPredictor) (zeroFeat 3)).decision_source
      = DecisionSource.ruleBasedLowScore :=
  (c5_fusion_gate defaultCfg (some mlHighPredictor) (zeroFeat 3)).1
    (by norm_num [make_decision, mlOutput, predict, chooseOptimal, should_scale,
      calculate_weighted_score, calculate_optimal_replicas, pyInt, pyRound, mean,
      extract_ml_features, mlHighPredictor, mlHighModel, zeroFeat, defaultCfg])

theorem should_scale_none (cfg : DEConfig) (cur pred : ℤ) (s : Scores)
    (f : Features)
    (h30 : 30 ≤ s.total_score) (h60 : s.total_score ≤ 60)
    (hgap : |pred - cur| < 2)
    (hcpu : 5 ≤ (if cur > 0 then f.cpu_current / (cur : ℚ) else f.cpu_current))
    (htrend : ¬(f.cpu_trend > 50 ∧ pred > cur))
    (hmin : ¬(pred = cfg.min_replicas ∧ s.total_score < 10))
    (hmax : ¬(pred = cfg.max_replicas ∧ s.total_score > 90)) :
    should_scale cfg cur pred s f = (false, ScaleReason.noScalingNeeded) := by
  unfold should_scale
  rw [if_neg (not_le.mpr hgap),
      if_neg (fun hc => absurd hc.1 (not_lt.mpr h60)),
      if_neg (fun hc => absurd hc.1 (not_lt.mpr h30)),
      if_neg (fun hc => absurd hc.1 (not_lt.mpr hcpu)),
      if_neg htrend, if_neg hmin, if_neg hmax]

theorem make_decision_of_no_scale (cfg : DEConfig) (mlp : Option MLPredictor)
    (f : Features)
    (h : should_scale cfg (pyInt f.pod_count)
      (chooseOptimal (calculate_optimal_replicas cfg f) (mlOutput mlp f)
        (calculate_weighted_score cfg f).total_score).1
      (calculate_weighted_score cfg f) f = (false, ScaleReason.noScalingNeeded)) :
    (make_decision cfg mlp f).should_scale = false ∧
    (make_decision cfg mlp f).action = Action.no_change ∧
    (make_decision cfg mlp f).target_replicas =
      (make_decision cfg mlp f).current_replicas := by
  simp only [make_decision]
  rw [h]
  simp

/-- Claim C6: whenever the total score lies in [30, 60], the gap between the
chosen optimal and the current count is below 2, the per-pod CPU is at least
5 m, the rapid-rise condition does not apply, and neither boundary condition
fires, `should_scale` is false and the decision is `no_change` with
`target = current`. -/
theorem c6_dampened_no_change (cfg : DEConfig) (mlp : Option MLPredictor)
    (f : Features)
    (h30 : 30 ≤ (make_decision cfg mlp f).scores.total_score)
    (h60 : (make_decision cfg mlp f).scores.total_score ≤ 60)
    (hgap : |(make_decision cfg mlp f).optimal_replicas -
      (make_decision cfg mlp f).current_replicas| < 2)
    (hcpu : 5 ≤ (if (make_decision cfg mlp f).current_replicas > 0 then
      f.cpu_current / ((make_decision cfg mlp f).current_replicas : ℚ)
      else f.cpu_current))
    (htrend : ¬(f.cpu_trend > 50 ∧
      (make_decision cfg mlp f).current_replicas <
        (make_decision cfg mlp f).optimal_replicas))
    (hmin : ¬((make_decision cfg mlp f).optimal_replicas = cfg.min_replicas ∧
      (make_decision cfg mlp f).scores.total_score < 10))
    (hmax : ¬((make_decision cfg mlp f).optimal_replicas = cfg.max_replicas ∧
      (make_decision cfg mlp f).scores.total_score > 90)) :
    (make_decision cfg mlp f).should_scale = false ∧
    (make_decision cfg mlp f).action = Action.no_change ∧
    (make_decision cfg mlp f).target_replicas =
      (make_decision cfg mlp f).current_replicas :=
  make_decision_of_no_scale cfg mlp f
    (should_scale_none cfg _ _ _ f h30 h60 hgap hcpu htrend hmin hmax)

/-- Witness for C6: 3 pods at cpu 250 m, memory 256 MB, network 5 Mbps has
total score 52 ∈ [30, 60], optimal 2 with |2 − 3| < 2, cpu/pod ≈ 83 ≥ 5, no
trend, and no boundary hit — so the decision is `no_change`. -/
theorem c6_dampened_no_change_witness :
    (make_decision defaultCfg none midLoadFeat).action = Action.no_change := by
  refine (c6_dampened_no_change defaultCfg none midLoadFeat
    ?_ ?_ ?_ ?_ ?_ ?_ ?_).2.1
  all_goals
    have hc : (⌈(3/2 : ℚ)⌉ : ℤ) = 2 := by rw [Int.ceil_eq_iff]; norm_num
    norm_num [make_decision, mlOutput, chooseOptimal, should_scale,
      calculate_weighted_score, calculate_optimal_replicas, pyInt, midLoadFeat,
      defaultCfg, hc]

theorem lookupKey_append (k : String) (l1 l2 : List (String × FVal)) :
    lookupKey k (l1 ++ l2) =
      (match lookupKey k l1 with
       | some v => some v
       | none => lookupKey k l2) := by
  induction l1 with
  | nil => simp [lookupKey]
  | cons a l ih =>
    obtain ⟨k', v⟩ := a
    by_cases h : k' = k <;> simp [lookupKey, h, ih]

/-- Counterexample to claim C4: with an empty history (0 < 10 samples) but a
live metric snapshot of 3 pods, `extract_features` does NOT return the
default feature vector (`pod_count` is 3, not the default 1), and the result
is missing the `cpu_volatility` and `cpu_rate_of_change` keys that the
default vector carries — so neither "default vector on short history" nor
"all 37+ fields always present" holds. -/
theorem c4_counterexample :
    ([] : List ℚ).length < 10 ∧
    lookupKey "pod_count" (extract_features (some liveMetrics) [] noonTime) =
      some (FVal.num 3) ∧
    lookupKey "pod_count" (defaultFeatures noonTime) = some (FVal.num 1) ∧
    lookupKey "cpu_volatility" (extract_features (some liveMetrics) [] noonTime) =
      none ∧
    lookupKey "cpu_volatility" (defaultFeatures noonTime) = some (FVal.num 0) ∧
    lookupKey "cpu_rate_of_change"
      (extract_features (some liveMetrics) [] noonTime) = none ∧
    extract_features (some liveMetrics) [] noonTime ≠ defaultFeatures noonTime := by
  refine ⟨by norm_num, rfl, rfl, rfl, rfl, rfl, ?_⟩
  intro heq
  have h1 : lookupKey "pod_count" (extract_features (some liveMetrics) [] noonTime)
      = some (FVal.num 3) := rfl
  rw [heq] at h1
  have h2 : lookupKey "pod_count" (defaultFeatures noonTime) = some (FVal.num 1) :=
    rfl
  rw [h2] at h1
  simp only [Option.some.injEq, FVal.num.injEq] at h1
  norm_num at h1

/-- Claim C4, amended: when the CPU history has fewer than 10 samples (and
metric acquisition does not raise), the trend and pattern groups take their
per-group defaults (zero trend/strength, pattern `unknown`, zero one-hot
flags) and the `cpu_rate_of_change` key is absent; the current-state fields
still come from the live snapshot (`pod_count` is the live value, not the
default).  With fewer than 2 samples the historical statistics are zero and
the `cpu_volatility` key is also absent.  The full default vector is
produced exactly when extraction raises (`currentMetrics = none`). -/
theorem c4_insufficient_history (m : PromMetrics) (hist : List ℚ)
    (t : TimeInfo) (h : hist.length < 10) :
    lookupKey "cpu_trend" (extract_features (some m) hist t) =
      some (FVal.num 0) ∧
    lookupKey "cpu_trend_strength" (extract_features (some m) hist t) =
      some (FVal.num 0) ∧
    lookupKey "cpu_pattern" (extract_features (some m) hist t) =
      some (FVal.str "unknown") ∧
    lookupKey "cpu_is_increasing" (extract_features (some m) hist t) =
      some (FVal.num 0) ∧
    lookupKey "cpu_is_stable" (extract_features (some m) hist t) =
      some (FVal.num 0) ∧
    lookupKey "cpu_is_decreasing" (extract_features (some m) hist t) =
      some (FVal.num 0) ∧
    lookupKey "cpu_rate_of_change" (extract_features (some m) hist t) = none ∧
    lookupKey "pod_count" (extract_features (some m) hist t) =
      some (FVal.num m.pod_count) ∧
    (hist.length < 2 →
      lookupKey "cpu_avg_15m" (extract_features (some m) hist t) =
        some (FVal.num 0) ∧
      lookupKey "cpu_std_15m" (extract_features (some m) hist t) =
        some (FVal.num 0) ∧
      lookupKey "cpu_volatility" (extract_features (some m) hist t) = none) ∧
    extract_features none hist t = defaultFeatures t := by
  by_cases h2 : hist.length < 2
  · refine ⟨?_, ?_, ?_, ?_, ?_, ?_, ?_, ?_, fun _ => ⟨?_, ?_, ?_⟩, rfl⟩ <;>
      simp [extract_features, extractCurrentFeatures, extractHistoricalFeatures,
        extractTimeFeatures, extractTrendFeatures, extractPatternFeatures,
        lookupKey_append, lookupKey, h, h2]
  · refine ⟨?_, ?_, ?_, ?_, ?_, ?_, ?_, ?_, fun hh => absurd hh h2, rfl⟩ <;>
      simp [extract_features, extractCurrentFeatures, extractHistoricalFeatures,
        extractTimeFeatures, extractTrendFeatures, extractPatternFeatures,
        lookupKey_append, lookupKey, h, h2]

/-- Witness for the amended C4: a 2-sample history (≥ 2, < 10) with live
metrics keeps pattern `unknown` and omits `cpu_rate_of_change`. -/
theorem c4_insufficient_history_witness :
    lookupKey "cpu_pattern" (extract_features (some liveMetrics) [0, 5] noonTime)
      = some (FVal.str "unknown") ∧
    lookupKey "cpu_rate_of_change"
      (extract_features (some liveMetrics) [0, 5] noonTime) = none :=
  ⟨(c4_insufficient_history liveMetrics [0, 5] noonTime (by simp)).2.2.1,
   (c4_insufficient_history liveMetrics [0, 5] noonTime
      (by simp)).2.2.2.2.2.2.1⟩

end Scaler
